import Mathlib

/-!
Verification of the Request Orchestration Core of the `ai_chat_mp` repository.

This file gives a shallow embedding, in Lean, of the parts of the source that
the specification claims talk about:

* `src/intelligent_router.py` — the deterministic rule router
  (`IntelligentRouter`: pattern/keyword confidence scoring, the external-search
  detector, and the routing combination logic);
* `src/llm_intelligent_router.py` — the conversion from a parsed LLM routing
  reply to a `RoutingDecision`;
* `src/tool_registry.py` / `src/tools.py` — `ToolRegistry.register_tool`,
  `get_callable` (the two copies are textually identical);
* `src/search_manager.py` — `SearchManager.assess_result_quality` and
  `SearchManager.search_with_fallback`;
* `src/context_analyzer.py` — `ContextRelevanceAnalyzer.get_optimal_context_window`,
  `detect_topic_establishment`, `calculate_conversation_relevance`,
  `_pattern_analyze_context`, `_filter_by_relevance`;
* `src/providers.py` — `GoogleProvider.generate_response` (the agentic tool
  loop) and the token-estimation helpers of `src/utils.py`;
* `src/ui.py` — the per-turn orchestration of `render_chat` (message appends
  and the single persistence write).

Modelling conventions:

* Python `float` values (confidences, scores, timestamps) are modelled as `ℚ`.
  Decimal literals such as `0.3` denote the exact rational; Python computes
  with binary floats, which differ from the rationals only by rounding that is
  irrelevant at every concrete value used in the theorems below (all are
  exactly representable or compared far from the error margin).
* Outbound LLM / HTTP calls are modelled by oracle parameters that record the
  outcome of the call in the execution being reasoned about (`Option` results:
  `none` models the `except` path or an absent client).
* Python regular expressions used by the router and analyzer are embedded via
  a small executable matcher (`Rx`, `reSearch`) covering exactly the
  constructs those patterns use: literals, `.*`, alternation and the `\b`
  word boundary, with `re.search` semantics (match anywhere, `.` not matching
  a newline).
* Free-text diagnostic strings that interpolate Python float formatting
  (`reasoning` texts with `:.2f` fields) are rendered with `toString` on `ℚ`
  instead; no claim depends on the rendering of a number inside a message.
-/

/-! ## Python string helpers (`utils.py` and `str` methods) -/

/-- Python `str.lower()` restricted to the ASCII case mapping, which is all the
source ever feeds it. -/
def pyLower (s : String) : String := ⟨s.data.map Char.toLower⟩

/-- Is the first character list a prefix of the second? -/
def listPrefixOf : List Char → List Char → Bool
  | [], _ => true
  | _ :: _, [] => false
  | p :: ps, c :: cs => p = c && listPrefixOf ps cs

/-- Does the first character list occur contiguously inside the second? -/
def listInfixOf : List Char → List Char → Bool
  | needle, [] => needle.isEmpty
  | needle, c :: cs => listPrefixOf needle (c :: cs) || listInfixOf needle cs

/-- Python `needle in hay` substring containment. -/
def pyContains (hay needle : String) : Bool := listInfixOf needle.data hay.data

/-- Accumulating splitter behind `pySplitWs`: `acc` is the current word,
reversed. -/
def wordsAux : List Char → List Char → List String
  | [], acc => if acc.isEmpty then [] else [String.mk acc.reverse]
  | c :: cs, acc =>
    if c.isWhitespace then
      if acc.isEmpty then wordsAux cs [] else String.mk acc.reverse :: wordsAux cs []
    else wordsAux cs (c :: acc)

/-- Python `str.split()` with no argument: split on whitespace runs, dropping
empty pieces. -/
def pySplitWs (s : String) : List String := wordsAux s.data []

/-- Join words with single spaces. -/
def joinSpace : List String → String
  | [] => ""
  | [w] => w
  | w :: ws => w ++ " " ++ joinSpace ws

/-- `' '.join(text.split())`, the whitespace normalization in
`utils.estimate_tokens`. -/
def pyNormalizeWs (s : String) : String := joinSpace (pySplitWs s)

/-- Python `int(round(n / 4))` for a natural `n`: division by 4 rounded to the
nearest integer, ties to even (Python 3 banker rounding). -/
def roundHalfEvenDiv4 (n : ℕ) : ℕ :=
  let q := n / 4
  match n % 4 with
  | 0 => q
  | 1 => q
  | 2 => if q % 2 = 0 then q else q + 1
  | _ => q + 1

/-- `utils.estimate_tokens`: 0 for the empty string, else
`max(1, int(round(len(' '.join(text.split())) / 4)))`. -/
def estimate_tokens (text : String) : ℕ :=
  if text = "" then 0
  else max 1 (roundHalfEvenDiv4 (pyNormalizeWs text).length)

/-! ## A tiny regular-expression matcher

The router and the context analyzer use `re.search` with patterns built only
from literal characters, `.*`, alternation groups and `\b`.  `Rx` is that
fragment; `matchRx r prev cs` returns the list of states (last consumed
character, remaining input) reachable after matching `r` at the start of
`cs`, where `prev` is the character just before `cs` (needed for `\b`).
`reSearch` tries every start position, which is `re.search` semantics. -/

/-- A regex word character, Python `\w` over the ASCII inputs used here. -/
def isWordChar (c : Char) : Bool := c.isAlpha || c.isDigit || c = '_'

/-- The `\b` zero-width predicate between an optional previous and next
character. -/
def wordBoundary (prev next : Option Char) : Bool :=
  (prev.elim false isWordChar) != (next.elim false isWordChar)

/-- The regex fragment used by the source patterns. -/
inductive Rx where
  | lit (s : String)
  | dotstar
  | wb
  | seq (a b : Rx)
  | alt (a b : Rx)
deriving Repr

/-- Match a literal string at the front of the input, tracking the last
consumed character. -/
def litMatch : Option Char → List Char → List Char → Option (Option Char × List Char)
  | prev, [], cs => some (prev, cs)
  | _, _ :: _, [] => none
  | _, p :: ps, c :: cs => if p = c then litMatch (some c) ps cs else none

/-- All states reachable by `.*`: consume any (possibly empty) prefix free of
newlines. -/
def dotstarStates : Option Char → List Char → List (Option Char × List Char)
  | prev, [] => [(prev, [])]
  | prev, c :: cs =>
    (prev, c :: cs) :: (if c = '\n' then [] else dotstarStates (some c) cs)

/-- All states reachable after matching `r` at the start of the input. -/
def matchRx : Rx → Option Char → List Char → List (Option Char × List Char)
  | .lit s, prev, cs => (litMatch prev s.data cs).toList
  | .dotstar, prev, cs => dotstarStates prev cs
  | .wb, prev, cs => if wordBoundary prev cs.head? then [(prev, cs)] else []
  | .seq a b, prev, cs => (matchRx a prev cs).flatMap (fun pc => matchRx b pc.1 pc.2)
  | .alt a b, prev, cs => matchRx a prev cs ++ matchRx b prev cs

/-- Try to match starting at each position of the input. -/
def searchFrom (r : Rx) : Option Char → List Char → Bool
  | prev, [] => !(matchRx r prev []).isEmpty
  | prev, c :: rest => !(matchRx r prev (c :: rest)).isEmpty || searchFrom r (some c) rest

/-- `re.search(r, s)` as a Boolean: does `r` match anywhere in `s`? -/
def reSearch (r : Rx) (s : String) : Bool := searchFrom r none s.data

/-- Sequence a list of regexes. -/
def rxseq : List Rx → Rx
  | [] => .lit ""
  | [r] => r
  | r :: rs => .seq r (rxseq rs)

/-- Alternation over a list of regexes (a `(x|y|z)` group). -/
def rxalt : List Rx → Rx
  | [] => .lit ""
  | [r] => r
  | r :: rs => .alt r (rxalt rs)

/-- The pattern `\bword\b`. -/
def bword (s : String) : Rx := rxseq [.wb, .lit s, .wb]

/-- The pattern `\b(a|b|...)\b`. -/
def bgroup (ss : List String) : Rx := rxseq [.wb, rxalt (ss.map Rx.lit), .wb]

/-! ## `intelligent_router.py` — the deterministic rule router -/

/-- `RouteType` from `intelligent_router.py`.  The constructor `SEARCH_FIRST`
carries the wire value `"search_first"`; it is the route kind the
specification calls `search_only` (the LLM wire value `"search_only"` is
mapped onto it in `llm_intelligent_router.py`, line 211). -/
inductive RouteType where
  | TOOL_DIRECT
  | TOOL_WITH_SEARCH
  | SEARCH_FIRST
  | MODEL_KNOWLEDGE
  | COMBINED
deriving DecidableEq, Repr

/-- The `.value` string of each `RouteType` member. -/
def RouteType.value : RouteType → String
  | .TOOL_DIRECT => "tool_direct"
  | .TOOL_WITH_SEARCH => "tool_with_search"
  | .SEARCH_FIRST => "search_first"
  | .MODEL_KNOWLEDGE => "model_knowledge"
  | .COMBINED => "combined"

/-- `ToolConfidence` dataclass (the free-text `reason` diagnostic is not
modelled; no claim concerns it). -/
structure ToolConfidence where
  tool_name : String
  confidence : ℚ
  can_handle : Bool
deriving DecidableEq, Repr

/-- `RoutingDecision` dataclass.  Note its exact field list: there is no
search-engine field. -/
structure RoutingDecision where
  route_type : RouteType
  primary_tool : Option String
  confidence : ℚ
  reasoning : String
  fallback_options : List String
deriving DecidableEq, Repr

/-- One entry of `IntelligentRouter.tool_patterns`:  `patterns`, `keywords`,
optional `location_indicators`, and `confidence_boost`. -/
structure ToolPatternConfig where
  patterns : List Rx
  keywords : List String
  location_indicators : Option (List String) := none
  confidence_boost : ℚ

/-- `IntelligentRouter._initialize_tool_patterns`, in dict insertion order. -/
def tool_patterns : List (String × ToolPatternConfig) :=
  [ ("get_weather_forecast",
     { patterns :=
         [ rxseq [bword "weather", .dotstar, bword "in"]
         , rxseq [bword "forecast", .dotstar, bword "for"]
         , rxseq [bword "temperature", .dotstar, bword "in"]
         , rxseq [bgroup ["rain", "snow", "sun"], .dotstar, bword "in"]
         , rxseq [.wb, .lit "how", .dotstar, .lit "hot", .dotstar, .lit "in", .wb]
         , rxseq [bword "climate", .dotstar, bword "in"] ]
       keywords := ["weather", "forecast", "temperature", "rain", "snow", "climate"]
       location_indicators := some ["in", "at", "for"]
       confidence_boost := 0.3 })
  , ("get_pws_current_conditions",
     { patterns :=
         [ rxseq [bgroup ["home", "my", "personal"], .dotstar,
                  bgroup ["weather", "temperature", "station"]]
         , bword "PWS"
         , rxseq [bword "weather station", .dotstar, bgroup ["my", "home", "personal"]]
         , rxseq [.wb, .lit "current", .dotstar, bgroup ["home", "my"], .dotstar,
                  bgroup ["weather", "temp"]]
         , rxseq [bword "PWS", .dotstar,
                  bgroup ["current", "conditions", "temperature", "weather"]] ]
       keywords := ["home", "my", "personal", "PWS", "station", "conditions"]
       confidence_boost := 0.5 })
  , ("get_home_weather",
     { patterns :=
         [ rxseq [bgroup ["home", "my", "personal"], .dotstar, bword "weather"]
         , rxseq [.wb, .lit "weather", .dotstar, bgroup ["home", "house"]]
         , rxseq [bgroup ["my", "our"], .dotstar, bgroup ["station", "tempest"]] ]
       keywords := ["home", "my", "personal", "house", "tempest"]
       confidence_boost := 0.4 })
  , ("brave_search",
     { patterns :=
         [ rxseq [bgroup ["latest", "recent", "current", "new"], .dotstar,
                  bgroup ["news", "events"]]
         , rxseq [.wb, .lit "what", .dotstar, .lit "happened", .wb]
         , bword "stock price"
         , rxseq [.wb, .lit "company", .dotstar, bgroup ["revenue", "earnings"]] ]
       keywords := ["latest", "recent", "current", "news", "stock", "company"]
       confidence_boost := 0.2 })
  , ("serper_search",
     { patterns :=
         [ rxseq [.wb, .lit "where", .dotstar, bword "open"]
         , bword "store hours"
         , bword "phone number"
         , rxseq [.wb, .lit "address", .dotstar, bword "of"] ]
       keywords := ["hours", "address", "phone", "location", "store"]
       confidence_boost := 0.2 })
  ]

/-- First-match association lookup (Python dict access by key). -/
def dictLookup {α : Type} : List (String × α) → String → Option α
  | [], _ => none
  | (k, v) :: rest, key => if k = key then some v else dictLookup rest key

/-- `IntelligentRouter.assess_tool_confidence`: `+0.3` per regex match,
`+0.2` per keyword hit, the location-indicator boost, the pattern/keyword
boost, then capped at `1.0`; `can_handle` iff the result reaches the low
threshold `0.2`. -/
def assess_tool_confidence (query : String) (tool_name : String) : ToolConfidence :=
  match dictLookup tool_patterns tool_name with
  | none => ⟨tool_name, 0, false⟩
  | some cfg =>
    let query_lower := pyLower query
    let pattern_matches := (cfg.patterns.filter (fun r => reSearch r query_lower)).length
    let keyword_matches := (cfg.keywords.filter (fun k => pyContains query_lower k)).length
    let base : ℚ := 0.3 * pattern_matches + 0.2 * keyword_matches
    let withLoc : ℚ :=
      match cfg.location_indicators with
      | some inds =>
        if inds.any (fun i => pyContains query_lower (" " ++ i ++ " ")) then
          base + cfg.confidence_boost
        else base
      | none => base
    let withBoost : ℚ :=
      if pattern_matches > 0 ∨ keyword_matches > 0 then withLoc + cfg.confidence_boost
      else withLoc
    let confidence := min withBoost 1
    ⟨tool_name, confidence, decide (confidence ≥ 0.2)⟩

/-- Stable insertion keeping earlier elements first among equal confidences. -/
def insertByConfDesc (x : ToolConfidence) : List ToolConfidence → List ToolConfidence
  | [] => [x]
  | y :: ys => if x.confidence ≥ y.confidence then x :: y :: ys else y :: insertByConfDesc x ys

/-- Python `list.sort(key=confidence, reverse=True)`: a stable descending
sort. -/
def sortByConfDesc : List ToolConfidence → List ToolConfidence
  | [] => []
  | x :: xs => insertByConfDesc x (sortByConfDesc xs)

/-- `IntelligentRouter.assess_all_tools`: assess every tool in the pattern
table and sort by confidence, highest first. -/
def assess_all_tools (query : String) : List ToolConfidence :=
  sortByConfDesc (tool_patterns.map (fun kv => assess_tool_confidence query kv.1))

/-- The `current_indicators` regexes of `needs_external_search`. -/
def current_indicators : List Rx :=
  [ bgroup ["latest", "recent", "current", "today", "now", "this week", "this month"]
  , bgroup ["stock price", "market", "news", "events"]
  , rxseq [.wb, rxalt [rxseq [.lit "what", .dotstar, .lit "happened"],
                       .lit "breaking", .lit "update"], .wb]
  , bgroup ["store hours", "phone number", "address"]
  , rxseq [bgroup ["open", "closed", "available"], .dotstar, bgroup ["now", "today"]] ]

/-- The `future_indicators` regexes of `needs_external_search`. -/
def future_indicators : List Rx :=
  [ rxseq [.wb, rxalt [rxseq [.lit "when", .dotstar, .lit "will"],
                       .lit "upcoming", .lit "scheduled", .lit "next"], .wb]
  , rxseq [bgroup ["forecast", "prediction", "estimate"], .dotstar,
           bgroup ["next", "future"]] ]

/-- `IntelligentRouter.needs_external_search` (the accompanying reason text is
diagnostic only and not modelled). -/
def needs_external_search (query : String) : Bool :=
  let query_lower := pyLower query
  current_indicators.any (fun r => reSearch r query_lower) ||
    future_indicators.any (fun r => reSearch r query_lower)

/-- Stand-in for Python `f"...{x:.2f}..."` number rendering inside diagnostic
strings; the exact decimal rendering is irrelevant to every claim. -/
def fmt2 (q : ℚ) : String := toString q

/-- The decision chain of `make_routing_decision` (source lines 220-279) as a
function of the scorer outputs it branches on: the best tool assessment
(`tool_assessments[0]`, `None` when there are no assessments), the
external-search flag, and the whitespace-token count of the query (used only
for the final `len(query.split()) > 3` fallback condition). -/
def routing_decision_logic (best_tool : Option ToolConfidence) (needs_search : Bool)
    (query_word_count : ℕ) : RoutingDecision :=
  match best_tool with
  | some best =>
    if best.confidence ≥ 0.8 then
      { route_type := .TOOL_DIRECT
        primary_tool := some best.tool_name
        confidence := best.confidence
        reasoning := "High tool confidence (" ++ fmt2 best.confidence ++ ")"
        fallback_options := if needs_search then ["search"] else [] }
    else if best.confidence ≥ 0.4 then
      if needs_search then
        { route_type := .TOOL_WITH_SEARCH
          primary_tool := some best.tool_name
          confidence := best.confidence
          reasoning := "Medium tool confidence + search needed"
          fallback_options := ["search_verification"] }
      else
        { route_type := .TOOL_DIRECT
          primary_tool := some best.tool_name
          confidence := best.confidence
          reasoning := "Medium tool confidence, no search needed"
          fallback_options := [] }
    else if needs_search then
      { route_type := .SEARCH_FIRST
        primary_tool := none
        confidence := 0.7
        reasoning := "Search needed for current info"
        fallback_options := if best.can_handle then [best.tool_name] else [] }
    else if best.confidence ≥ 0.2 then
      { route_type := .TOOL_DIRECT
        primary_tool := some best.tool_name
        confidence := best.confidence
        reasoning := "Low-medium tool confidence"
        fallback_options := ["search"] }
    else
      { route_type := .MODEL_KNOWLEDGE
        primary_tool := none
        confidence := 0.6
        reasoning := "No suitable tools found, using model knowledge"
        fallback_options := if query_word_count > 3 then ["search"] else [] }
  | none =>
    if needs_search then
      { route_type := .SEARCH_FIRST
        primary_tool := none
        confidence := 0.7
        reasoning := "Search needed for current info"
        fallback_options := [] }
    else
      { route_type := .MODEL_KNOWLEDGE
        primary_tool := none
        confidence := 0.6
        reasoning := "No suitable tools found, using model knowledge"
        fallback_options := if query_word_count > 3 then ["search"] else [] }

/-- `IntelligentRouter.make_routing_decision` (source lines 204-279): assess
all tools, detect the search need, and apply the decision chain. -/
def make_routing_decision (query : String) : RoutingDecision :=
  routing_decision_logic (assess_all_tools query).head? (needs_external_search query)
    (pySplitWs query).length

/-! ## `llm_intelligent_router.py` — LLM reply to `RoutingDecision` -/

/-- A successfully parsed JSON reply of the routing LLM, as read by
`make_llm_routing_decision` (lines 199-205).  `none` in a field models both a
JSON `null` and an absent key, exactly as `dict.get` conflates them. -/
structure LLMReply where
  routing_decision : Option String
  primary_tool : Option String
  search_provider : Option String
  confidence : Option ℚ
  reasoning : Option String
  fallback_options : Option (List String)

/-- The `route_type_mapping` dict (lines 208-216), with the `.get` default
`RouteType.MODEL_KNOWLEDGE`. -/
def route_type_mapping (s : String) : RouteType :=
  if s = "tool_direct" then .TOOL_DIRECT
  else if s = "tool_with_search" then .TOOL_WITH_SEARCH
  else if s = "search_only" then .SEARCH_FIRST
  else if s = "model_knowledge" then .MODEL_KNOWLEDGE
  else if s = "combined" then .COMBINED
  else .MODEL_KNOWLEDGE

/-- The conversion of a parsed LLM reply into a `RoutingDecision`
(`make_llm_routing_decision`, lines 199-229).  The source binds
`search_provider = data.get("search_provider")` on line 202 and never uses it
again: the constructed `RoutingDecision` has no field to carry it. -/
def make_llm_routing_decision_from_reply (response_time : ℚ) (reply : LLMReply) :
    RoutingDecision :=
  let routing_decision := reply.routing_decision.getD "model_knowledge"
  let route_type := route_type_mapping routing_decision
  { route_type := route_type
    primary_tool := reply.primary_tool
    confidence := reply.confidence.getD 0.5
    reasoning := "LLM: " ++ reply.reasoning.getD "LLM routing decision"
        ++ " (response_time: " ++ fmt2 response_time ++ "s)"
    fallback_options := reply.fallback_options.getD [] }

/-! ## `tool_registry.py` / `tools.py` — the tool registry

The two copies of `ToolRegistry` are textually identical.  Callables and
parameter schemas are opaque to the registry, so the registry is parametrised
over their types. -/

/-- Python dict assignment `d[k] = v`: overwrite in place if the key exists
(keeping its position), else append. -/
def dictSet {α : Type} : List (String × α) → String → α → List (String × α)
  | [], k, v => [(k, v)]
  | (k', v') :: rest, k, v =>
    if k' = k then (k, v) :: rest else (k', v') :: dictSet rest k v

/-- The three dicts of `ToolRegistry.__init__`. -/
structure ToolRegistry (Fn Schema : Type) where
  fns : List (String × Fn)
  descriptions : List (String × String)
  param_schemas : List (String × Schema)

/-- A freshly constructed registry. -/
def ToolRegistry.empty {Fn Schema : Type} : ToolRegistry Fn Schema := ⟨[], [], []⟩

/-- `ToolRegistry.register_tool`: unconditionally assign into the three
dicts; the schema dict is touched only when a schema is supplied. -/
def ToolRegistry.register_tool {Fn Schema : Type} (r : ToolRegistry Fn Schema)
    (fn : Fn) (name : String) (description : String)
    (params_schema : Option Schema) : ToolRegistry Fn Schema :=
  { fns := dictSet r.fns name fn
    descriptions := dictSet r.descriptions name description
    param_schemas :=
      match params_schema with
      | some s => dictSet r.param_schemas name s
      | none => r.param_schemas }

/-- `ToolRegistry.get_callable`: `self._fns.get(name)`. -/
def ToolRegistry.get_callable {Fn Schema : Type} (r : ToolRegistry Fn Schema)
    (name : String) : Option Fn :=
  dictLookup r.fns name

/-- Registry well-formedness: each internal dict has no duplicate keys (always
true of a Python dict; stated to express name uniqueness). -/
def ToolRegistry.wf {Fn Schema : Type} (r : ToolRegistry Fn Schema) : Prop :=
  (r.fns.map Prod.fst).Nodup ∧ (r.descriptions.map Prod.fst).Nodup ∧
    (r.param_schemas.map Prod.fst).Nodup

/-! ## `search_manager.py` — quality assessment and engine fallback -/

/-- Outcome of one execution of a search-engine callable. -/
inductive EngineCall where
  | raises
  | returns (result : String)
deriving DecidableEq, Repr

/-- The external world seen by one `search_with_fallback` run: whether the
registry resolves an engine name, what each engine call does at each attempt,
and what the quality-rating LLM call returns at each attempt (`none` models
the `except` path of `assess_result_quality`). -/
structure SearchEnv where
  registryHas : String → Bool
  call : ℕ → String → String → EngineCall
  rater : ℕ → Option ℚ

/-- `SearchManager.assess_result_quality`: 0 for an empty result or one
containing `"no results"` case-insensitively (the rating model is not
consulted); otherwise the rating-model value, or the neutral 5.0 when that
call fails. -/
def assess_result_quality (raterOutcome : Option ℚ) (result : String) : ℚ :=
  if result = "" ∨ pyContains (pyLower result) "no results" then 0
  else
    match raterOutcome with
    | some x => x
    | none => 5

/-- `SearchManager.search_engines`. -/
def search_engines : List String := ["brave_search", "serper_search"]

/-- The running state of the `search_with_fallback` loop. -/
structure SearchState where
  best_result : String
  best_score : ℚ
  best_engine : String
  attempts : ℕ
deriving DecidableEq, Repr

/-- One `while` pass of `search_with_fallback`, fuelled by
`max_attempts - attempts` (each pass increases `attempts` by exactly one, so
`fuel = 0` is exactly the exit condition `attempts < max_attempts` failing).
A `break` on reaching the quality threshold returns without touching
`attempts`, as in the source, where `break` skips the `attempts += 1` at the
bottom of the loop body. -/
def search_loop (env : SearchEnv) (query : String) (quality_threshold : ℚ) :
    ℕ → SearchState → SearchState
  | 0, st => st
  | fuel + 1, st =>
    if st.best_score ≥ quality_threshold then st
    else
      let engine := (search_engines.get? (st.attempts % search_engines.length)).getD ""
      if ¬env.registryHas engine then
        search_loop env query quality_threshold fuel { st with attempts := st.attempts + 1 }
      else
        match env.call st.attempts engine query with
        | .raises =>
          search_loop env query quality_threshold fuel { st with attempts := st.attempts + 1 }
        | .returns result =>
          let score := assess_result_quality (env.rater st.attempts) result
          let st' :=
            if score > st.best_score then
              { st with best_result := result, best_score := score, best_engine := engine }
            else st
          if score ≥ quality_threshold then st'
          else search_loop env query quality_threshold fuel { st' with attempts := st'.attempts + 1 }

/-- `SearchManager.search_with_fallback` with the constructor defaults
`max_attempts = 5`, `quality_threshold = 7.0`.  The returned triple of the
source is the first three fields of the final state. -/
def search_with_fallback (env : SearchEnv) (query : String)
    (max_attempts : ℕ := 5) (quality_threshold : ℚ := 7) : SearchState :=
  search_loop env query quality_threshold max_attempts ⟨"", 0, "", 0⟩

/-! ## Shared message shape

Messages are Python dicts; the keys touched by the embedded code are `role`,
`content`, `timestamp`, `search_results` and `relevance_score` (the last two
optional, as in the source). -/

/-- A chat message dict. -/
structure Message where
  role : String
  content : String
  timestamp : Option ℚ := none
  search_results : Option String := none
  relevance_score : Option ℚ := none
deriving DecidableEq, Repr

/-! ## `context_analyzer.py` — context window selection -/

/-- The result dict of `_pattern_analyze_context` / `_llm_analyze_context`
(the `reasoning`, `context_window` and `analysis_method` diagnostics are not
modelled; no claim concerns them). -/
structure ContextAnalysis where
  needs_full_context : Bool
  confidence : ℚ
  question_type : String
deriving DecidableEq, Repr

/-- The result dict of `detect_topic_establishment` (the `reasoning`
diagnostic is not modelled). -/
structure TopicInfo where
  topic_established : Bool
  main_topic : Option String
  confidence : ℚ
deriving DecidableEq, Repr

/-- The `standalone_patterns` of `ContextRelevanceAnalyzer.__init__`. -/
def standalone_patterns : List Rx :=
  [ bgroup ["weather", "temperature", "temp", "forecast", "rain", "snow", "humidity", "wind"]
  , bgroup ["time", "date", "today", "tomorrow", "yesterday", "now", "current"]
  , bgroup ["calculate", "compute", "solve", "math", "equation", "+", "-", "*", "/", "="]
  , bgroup ["what is", "who is", "define", "explain", "meaning", "definition"]
  , bgroup ["how to", "how do", "tell me", "show me", "find", "search"]
  , bgroup ["convert", "translate", "summarize", "list", "create", "generate"] ]

/-- The `context_dependent_patterns` of `ContextRelevanceAnalyzer.__init__`. -/
def context_dependent_patterns : List Rx :=
  [ bgroup ["that", "this", "it", "they", "them", "earlier", "before", "previous",
            "above", "mentioned"]
  , bgroup ["also", "additionally", "furthermore", "moreover", "and", "but",
            "however", "though"]
  , bgroup ["compared to", "versus", "vs", "different from", "similar to", "like that"]
  , bgroup ["more about", "details about", "expand on", "continue", "follow up"] ]

/-- `ContextRelevanceAnalyzer._pattern_analyze_context`: count pattern hits on
the lowercased question; more standalone hits wins `standalone`, more
context hits wins `context_dependent`, ties default to `context_dependent`. -/
def pattern_analyze_context (current_question : String) : ContextAnalysis :=
  let question_lower := pyLower current_question
  let s := (standalone_patterns.filter (fun r => reSearch r question_lower)).length
  let c := (context_dependent_patterns.filter (fun r => reSearch r question_lower)).length
  if s > c then
    ⟨false, min 0.8 ((s : ℚ) / ((s : ℚ) + (c : ℚ) + 1)), "standalone"⟩
  else if c > s then
    ⟨true, min 0.8 ((c : ℚ) / ((s : ℚ) + (c : ℚ) + 1)), "context_dependent"⟩
  else
    ⟨true, 0.5, "context_dependent"⟩

/-- `ContextRelevanceAnalyzer.detect_topic_establishment`: with fewer than 4
messages the topic is never established; otherwise the decision-LLM result is
used when the call succeeds (`topicOracle = some r`), else the `> 6 messages`
heuristic. -/
def detect_topic_establishment (topicOracle : Option TopicInfo)
    (messages : List Message) : TopicInfo :=
  if messages.length < 4 then ⟨false, none, 0⟩
  else
    match topicOracle with
    | some r => r
    | none =>
      ⟨decide (messages.length > 6),
       if messages.length > 6 then some "Extended conversation" else none, 0.5⟩

/-- `ContextRelevanceAnalyzer.calculate_conversation_relevance`: 1.0 for short
histories or when no topic is established; else the clamped decision-LLM
score when that call succeeds, else 0.2/0.8 from the pattern classifier. -/
def calculate_conversation_relevance (topicOracle : Option TopicInfo)
    (relOracle : Option ℚ) (current_question : String)
    (chat_history : List Message) : ℚ :=
  if chat_history.length < 3 then 1
  else
    let topic_info := detect_topic_establishment topicOracle chat_history
    if ¬topic_info.topic_established then 1
    else
      match relOracle with
      | some score => max 0 (min 1 score)
      | none =>
        if (pattern_analyze_context current_question).question_type = "standalone" then 0.2
        else 0.8

/-- `ContextRelevanceAnalyzer._filter_by_relevance`: keep messages whose
`relevance_score` (default 1.0) reaches the threshold. -/
def filter_by_relevance (messages : List Message) (threshold : ℚ) : List Message :=
  messages.filter (fun m => m.relevance_score.getD 1 ≥ threshold)

/-- Python `l[-n:]`. -/
def takeLast {α : Type} (n : ℕ) (l : List α) : List α := l.drop (l.length - n)

/-- `ContextRelevanceAnalyzer.get_optimal_context_window` (lines 194-251).
`topicOracle` and `relOracle` are the outcomes of the decision-LLM calls made
during this selection. -/
def get_optimal_context_window (topicOracle : Option TopicInfo)
    (relOracle : Option ℚ) (analysis_result : ContextAnalysis)
    (full_history : List Message) : List Message :=
  match full_history.getLast? with
  | none => []
  | some current_question =>
    let conversation_history := full_history.dropLast
    let topic_info := detect_topic_establishment topicOracle conversation_history
    let relevance_score :=
      calculate_conversation_relevance topicOracle relOracle
        current_question.content conversation_history
    if ¬topic_info.topic_established then [current_question]
    else if relevance_score < 0.3 then [current_question]
    else
      let confidence := analysis_result.confidence
      if confidence > 0.8 then
        filter_by_relevance (takeLast 8 conversation_history) 0.3 ++ [current_question]
      else if confidence > 0.6 then
        filter_by_relevance (takeLast 12 conversation_history) 0.2 ++ [current_question]
      else full_history

/-! ## `providers.py` — `GoogleProvider.generate_response` -/

/-- Python truthiness of an optional string (`if search_results:`): present
and non-empty. -/
def pyTruthyStr : Option String → Bool
  | some s => s ≠ ""
  | none => false

/-- One part of a Gemini API history entry. -/
inductive HistPart where
  | text (s : String)
  | functionResponse (name : String) (content : String)
deriving DecidableEq, Repr

/-- A Gemini API history entry (`{"role": ..., "parts": [...]}`). -/
structure HistEntry where
  role : String
  part : HistPart
deriving DecidableEq, Repr

/-- The `usage_metadata` a Gemini response may carry.  The source of
`GoogleProvider.generate_response` never reads it; it is modelled so that
theorems can quantify over responses that do supply it. -/
structure UsageMetadata where
  prompt_token_count : ℕ
  candidates_token_count : ℕ
deriving DecidableEq, Repr

/-- The first candidate of a Gemini response, as the loop inspects it: either
a function call part or a text part. -/
inductive CandidateContent where
  | functionCall (name : String) (args : String)
  | text (s : String)
deriving DecidableEq, Repr

/-- A Gemini `generate_content` response: first candidate plus optional usage
metadata. -/
structure ModelResponse where
  candidate : CandidateContent
  usage_metadata : Option UsageMetadata
deriving DecidableEq, Repr

/-- `ResponseMetrics` as assembled by the providers (`response_time`,
`input_tokens`, `output_tokens`, `estimated` field list). -/
structure ResponseMetrics where
  response_time : ℚ
  input_tokens : ℕ
  output_tokens : ℕ
  estimated : List String
deriving DecidableEq, Repr

/-- `utils.create_response_object`: `{"text": ..., "metrics": ...}`; `none`
models the `metrics or {}` empty-dict case of other providers. -/
structure ResponseObject where
  text : String
  metrics : Option ResponseMetrics
deriving DecidableEq, Repr

/-- The stable fallback text of the agentic loop (source line 179; the
apostrophe is spelled via its code point). -/
def apos : String := ⟨[Char.ofNat 39]⟩

/-- The exact fallback string returned when the loop exhausts. -/
def loop_exhausted_text : String :=
  "I couldn" ++ apos ++ "t complete the request with the available tools."

/-- The agentic tool loop of `GoogleProvider.generate_response` (lines
114-176): up to `fuel` model iterations; a pure-text turn ends the loop with
that text; a function call to an unknown tool appends the unknown-tool notice
and continues; a known tool is invoked and its output appended as a function
response.  Returns the final text (if any) and the number of model calls
made.  `model` is the trace of `model.generate_content` for this run;
arguments are passed to the tool callable as their raw JSON text. -/
def google_agentic_loop (model : List HistEntry → ModelResponse)
    (registry : ToolRegistry (String → String) Unit) :
    ℕ → List HistEntry → Option String × ℕ
  | 0, _ => (none, 0)
  | fuel + 1, api_history =>
    let response := model api_history
    match response.candidate with
    | .text s => (some s, 1)
    | .functionCall tool_name args =>
      match registry.get_callable tool_name with
      | none =>
        let r := google_agentic_loop model registry fuel
          (api_history ++ [⟨"model", .text ("I tried to call unknown tool " ++ tool_name)⟩])
        (r.1, r.2 + 1)
      | some tool_fn =>
        let tool_output := tool_fn args
        let r := google_agentic_loop model registry fuel
          (api_history ++ [⟨"function", .functionResponse tool_name tool_output⟩])
        (r.1, r.2 + 1)

/-- The input-token text of the provider: current (last) user message content
plus the search results when truthy (lines 62-67). -/
def google_input_text (messages : List Message) (search_results : Option String) : String :=
  let current_user_message := ((messages.getLast?).map (fun m => m.content)).getD ""
  if pyTruthyStr search_results then current_user_message ++ search_results.getD ""
  else current_user_message

/-- The provider-native history built before the loop (lines 83-109):
system-prompt preamble when non-empty, then the conversation with
`assistant` mapped to `model`, then the search-results turn when truthy.
`system_prompt` is the already-enhanced prompt returned by
`enhance_system_prompt` (profile enhancement is outside every claim). -/
def google_api_history (messages : List Message) (system_prompt : String)
    (search_results : Option String) : List HistEntry :=
  (if system_prompt ≠ "" then
    [⟨"user", .text ("System Prompt: " ++ system_prompt)⟩, ⟨"model", .text "Acknowledged."⟩]
   else []) ++
  messages.map (fun msg =>
    ⟨if msg.role = "assistant" then "model" else "user", .text msg.content⟩) ++
  (match search_results with
   | some s =>
     if s ≠ "" then
       [⟨"user", .text ("Here are the search results to help you answer:\n\n" ++ s)⟩]
     else []
   | none => [])

/-- `GoogleProvider.generate_response` on its normal (non-exception) paths:
run the agentic loop with 3 iterations; a text turn returns it with locally
estimated token metrics, and an exhausted loop returns the stable fallback
text with the same metric shape (lines 111-186).  `elapsed` is the
`ResponseTimer` reading at return. -/
def google_generate_response (model : List HistEntry → ModelResponse)
    (registry : ToolRegistry (String → String) Unit) (messages : List Message)
    (system_prompt : String) (search_results : Option String) (elapsed : ℚ) :
    ResponseObject :=
  let input_tokens := estimate_tokens (google_input_text messages search_results)
  let api_history := google_api_history messages system_prompt search_results
  match (google_agentic_loop model registry 3 api_history).1 with
  | some final_text =>
    { text := final_text
      metrics := some
        { response_time := elapsed
          input_tokens := input_tokens
          output_tokens := estimate_tokens final_text
          estimated := ["input_tokens", "output_tokens"] } }
  | none =>
    { text := loop_exhausted_text
      metrics := some
        { response_time := elapsed
          input_tokens := input_tokens
          output_tokens := estimate_tokens loop_exhausted_text
          estimated := ["input_tokens", "output_tokens"] } }

/-! ## `ui.py` — the per-turn orchestration of `render_chat` (lines 132-214) -/

/-- The conversation document as the turn sees it. -/
structure Conversation where
  messages : List Message
  updated_at : ℚ
deriving DecidableEq, Repr

/-- A write issued against the chat collection
(`db.chats.update_one({"_id": ...}, {"$set": {messages, updated_at}})`). -/
inductive DBWrite where
  | updateChat (messages : List Message) (updated_at : ℚ)
deriving DecidableEq, Repr

/-! One user turn of `render_chat` that completes normally, from the accepted
`chat_input` prompt to the persistence write.  External collaborators are
oracles: `routing` is `apply_intelligent_routing` (returning
`(needs_search, search_provider, routing_type)`), `optimize` is
`optimize_search_query`, `search1`/`search2` the two possible
`search_with_fallback` invocations (each returning
`(results, score, engine)`), and `generate` is
`generate_chat_response_with_providers`.  `tUser`, `tAssistant` and `tUpdate`
are the three `current_time()` readings.  Returns the updated in-session
conversation and the list of database writes the turn performs. -/

/-- The user message the turn appends (line 137). -/
def turn_user_message (prompt : String) (tUser : ℚ) : Message :=
  { role := "user", content := prompt, timestamp := some tUser }

/-- The search phase of the turn (lines 142-165): route, and when search is
needed, optimize, search, retry with the original prompt below the 3.0
threshold, and accept only above 2.0. -/
def turn_search_results_text (routing : String → Bool × String × String)
    (optimize : String → String)
    (search1 search2 : String → String × ℚ × String)
    (prompt : String) : Option String :=
  let needs_search := (routing prompt).1
  if needs_search then
    let optimized_prompt := optimize prompt
    let r1 := search1 optimized_prompt
    let r2 := if r1.2.1 < 3 then search2 prompt else r1
    some (if r2.2.1 > 2 then r2.1 else "No relevant search results found.")
  else none

/-- The assistant message the turn appends (lines 196-203), carrying the
search-passage attachment exactly when the passage is truthy. -/
def turn_assistant_message (generate : Option String → ResponseObject)
    (search_results_text : Option String) (tAssistant : ℚ) : Message :=
  { role := "assistant", content := (generate search_results_text).text
    timestamp := some tAssistant
    search_results := if pyTruthyStr search_results_text then search_results_text else none }

/-- The whole turn: append the user message, run the search phase, generate,
append the assistant message, and issue the single persistence write. -/
def render_chat_turn (routing : String → Bool × String × String)
    (optimize : String → String)
    (search1 search2 : String → String × ℚ × String)
    (generate : Option String → ResponseObject)
    (tUser tAssistant tUpdate : ℚ)
    (conv : Conversation) (prompt : String) : Conversation × List DBWrite :=
  let user_message := turn_user_message prompt tUser
  let messages1 := conv.messages ++ [user_message]
  let search_results_text := turn_search_results_text routing optimize search1 search2 prompt
  let assistant_message := turn_assistant_message generate search_results_text tAssistant
  let messages2 := messages1 ++ [assistant_message]
  ({ messages := messages2, updated_at := tUpdate },
   [DBWrite.updateChat messages2 tUpdate])

/-! ## Concrete instances used by witnesses and counterexamples -/

/-- A routing oracle that requests no search. -/
def cRoutingNoSearch : String → Bool × String × String := fun _ => (false, "", "model_knowledge")

/-- A provider oracle returning a fixed normal response. -/
def cGenerateOk : Option String → ResponseObject := fun _ => ⟨"ok", none⟩

/-- A search oracle returning nothing. -/
def cSearchEmpty : String → String × ℚ × String := fun _ => ("", 0, "")

/-- A model trace that answers every history with a function call. -/
def cModelAllCalls : List HistEntry → ModelResponse :=
  fun _ => ⟨.functionCall "brave_search" "q", none⟩

/-- A model trace that answers with text and also supplies usage metadata. -/
def cModelTextUsage : List HistEntry → ModelResponse :=
  fun _ => ⟨.text "The capital of France is Paris.", some ⟨100, 50⟩⟩

/-- A fifteen-character user message. -/
def cMsgHi : Message := { role := "user", content := "Hi there friend" }

/-- A search environment in which every engine call raises. -/
def envAllRaise : SearchEnv := ⟨fun _ => true, fun _ _ _ => .raises, fun _ => none⟩

/-- A search environment in which every engine call returns an API error
string and every quality-rating call fails. -/
def envBraveError : SearchEnv :=
  ⟨fun _ => true, fun _ _ _ => .returns "Brave API error: 429", fun _ => none⟩

/-- First message of a three-message history about an ongoing topic. -/
def cHistMsg1 : Message := { role := "user", content := "please expand on python generators" }

/-- Second message of the three-message history. -/
def cHistMsg2 : Message := { role := "assistant", content := "sure, generators are lazy" }

/-- The current, context-dependent question of the three-message history. -/
def cHistMsg3 : Message := { role := "user", content := "tell me more about that" }

/-- A three-message history whose current question is context-dependent. -/
def cHist3 : List Message := [cHistMsg1, cHistMsg2, cHistMsg3]

/-- An analysis marking the current question context-dependent. -/
def cAnalysisCtxDep : ContextAnalysis := ⟨true, 0.5, "context_dependent"⟩

/-- An LLM routing reply asking for `search_only` with engine `brave`. -/
def cReplyWithProvider : LLMReply :=
  { routing_decision := some "search_only", primary_tool := none,
    search_provider := some "brave", confidence := some 0.9,
    reasoning := some "needs current info", fallback_options := some [] }

/-- The same reply with the engine field absent. -/
def cReplyNoProvider : LLMReply :=
  { cReplyWithProvider with search_provider := none }

/-- A registry in which the name `demo_tool` is registered twice. -/
def cRegTwice : ToolRegistry ℕ ℕ :=
  (ToolRegistry.empty.register_tool 1 "demo_tool" "first description" (some 11)).register_tool
    2 "demo_tool" "second description" (some 22)

/-! ## Theorems -/

/-- C1: for every user turn of `render_chat` that completes normally, exactly
one user message (role `user`, content the prompt) and one assistant message
(role `assistant`) are appended to the active conversation; the pair is
persisted by a single `update_one` write that sets the whole message array
together with the refreshed `updated_at`; and — given that the clock reading
taken at the write exceeds the previous `updated_at` — `updated_at` strictly
increases.  The write list of the turn is a single update carrying both
messages, so no state with only one side of the exchange is ever written. -/
theorem render_chat_turn_atomic_pair
    (routing : String → Bool × String × String) (optimize : String → String)
    (search1 search2 : String → String × ℚ × String)
    (generate : Option String → ResponseObject)
    (tUser tAssistant tUpdate : ℚ) (conv : Conversation) (prompt : String)
    (hclock : conv.updated_at < tUpdate) :
    (render_chat_turn routing optimize search1 search2 generate tUser tAssistant tUpdate
        conv prompt).1.messages
      = conv.messages ++
          [turn_user_message prompt tUser,
           turn_assistant_message generate
             (turn_search_results_text routing optimize search1 search2 prompt) tAssistant] ∧
    (turn_user_message prompt tUser).role = "user" ∧
    (turn_user_message prompt tUser).content = prompt ∧
    (turn_assistant_message generate
        (turn_search_results_text routing optimize search1 search2 prompt) tAssistant).role
      = "assistant" ∧
    (render_chat_turn routing optimize search1 search2 generate tUser tAssistant tUpdate
        conv prompt).2
      = [DBWrite.updateChat
          (render_chat_turn routing optimize search1 search2 generate tUser tAssistant tUpdate
            conv prompt).1.messages tUpdate] ∧
    conv.updated_at <
      (render_chat_turn routing optimize search1 search2 generate tUser tAssistant tUpdate
        conv prompt).1.updated_at := by
  refine ⟨?_, rfl, rfl, rfl, ?_, ?_⟩
  · simp [render_chat_turn]
  · simp [render_chat_turn]
  · simpa [render_chat_turn] using hclock

/-- Witness for C1: the turn theorem applied at concrete oracles, a concrete
conversation and concrete clock readings. -/
theorem render_chat_turn_atomic_pair_witness :
    ((⟨[], 0⟩ : Conversation).updated_at < (1 : ℚ)) ∧
    (render_chat_turn cRoutingNoSearch id cSearchEmpty cSearchEmpty cGenerateOk 1 1 1
        ⟨[], 0⟩ "hello").1.messages
      = [turn_user_message "hello" 1,
         turn_assistant_message cGenerateOk
           (turn_search_results_text cRoutingNoSearch id cSearchEmpty cSearchEmpty "hello") 1] ∧
    (⟨[], 0⟩ : Conversation).updated_at <
      (render_chat_turn cRoutingNoSearch id cSearchEmpty cSearchEmpty cGenerateOk 1 1 1
        ⟨[], 0⟩ "hello").1.updated_at := by
  have h := render_chat_turn_atomic_pair cRoutingNoSearch id cSearchEmpty cSearchEmpty
    cGenerateOk 1 1 1 ⟨[], 0⟩ "hello" (by decide)
  exact ⟨by decide, by simpa using h.1, h.2.2.2.2.2⟩

/-- C3 counterexample: two parsed LLM routing replies that differ only in
`search_provider` (`"brave"` versus absent) are converted to identical
`RoutingDecision` values of the kind the specification calls `search_only`;
the produced decision therefore cannot carry a non-empty search engine, and
indeed the `RoutingDecision` dataclass has no engine field at all. -/
theorem routing_decision_drops_engine_cx :
    cReplyWithProvider.search_provider = some "brave" ∧
    cReplyNoProvider.search_provider = none ∧
    make_llm_routing_decision_from_reply 1 cReplyWithProvider =
      make_llm_routing_decision_from_reply 1 cReplyNoProvider ∧
    (make_llm_routing_decision_from_reply 1 cReplyWithProvider).route_type =
      RouteType.SEARCH_FIRST :=
  ⟨rfl, rfl, rfl, rfl⟩

/-- C3 amended: `RoutingDecision` has no search-engine field;
`make_llm_routing_decision` parses `search_provider` and discards it, so the
decision produced from an LLM reply is entirely independent of the reply's
search-provider field — in particular decisions of kind `search_only` or
`tool_with_search` carry no search engine. -/
theorem routing_decision_independent_of_engine (t : ℚ) (reply : LLMReply)
    (p : Option String) :
    make_llm_routing_decision_from_reply t { reply with search_provider := p } =
      make_llm_routing_decision_from_reply t reply := rfl

/-- C7 counterexample: a Gemini response that does supply usage metadata
(`prompt_token_count = 100`, `candidates_token_count = 50`) still yields
metrics whose token counts are the local heuristic estimates (4 input tokens
for the fifteen-character message, 8 output tokens) flagged as estimated —
the provider-reported counts are never used. -/
theorem google_metrics_ignore_usage_cx :
    (cModelTextUsage []).usage_metadata = some ⟨100, 50⟩ ∧
    google_generate_response cModelTextUsage ToolRegistry.empty [cMsgHi] "" none 1 =
      ⟨"The capital of France is Paris.",
       some ⟨1, 4, 8, ["input_tokens", "output_tokens"]⟩⟩ ∧
    (google_generate_response cModelTextUsage ToolRegistry.empty [cMsgHi] "" none 1).metrics ≠
      some ⟨1, 100, 50, []⟩ := by
  refine ⟨rfl, ?_, ?_⟩ <;> with_unfolding_all decide

/-- C7 amended: on every normal path of `GoogleProvider.generate_response`
the metrics are the locally measured elapsed time plus heuristically
estimated input/output token counts, with both token fields flagged as
estimates — usage metadata supplied by the response is never consulted.
(The second half of the original claim holds: every estimate-flagged field
originates from the heuristic estimator.) -/
theorem google_metrics_always_estimated (model : List HistEntry → ModelResponse)
    (registry : ToolRegistry (String → String) Unit) (messages : List Message)
    (system_prompt : String) (search_results : Option String) (elapsed : ℚ) :
    ∃ t, google_generate_response model registry messages system_prompt search_results elapsed =
      ⟨t, some ⟨elapsed, estimate_tokens (google_input_text messages search_results),
          estimate_tokens t, ["input_tokens", "output_tokens"]⟩⟩ := by
  rcases h : (google_agentic_loop model registry 3
      (google_api_history messages system_prompt search_results)).1 with _ | t
  · exact ⟨loop_exhausted_text, by rw [google_generate_response, h]⟩
  · exact ⟨t, by rw [google_generate_response, h]⟩

/-- C8 counterexample: on the empty utterance the rule router does return
`model_knowledge` with no primary tool, but its confidence is the hardcoded
0.6, which is not at most 0.5 as the claim states. -/
theorem empty_query_routing_cx :
    (make_routing_decision "").route_type = RouteType.MODEL_KNOWLEDGE ∧
    (make_routing_decision "").primary_tool = none ∧
    (make_routing_decision "").confidence = 0.6 ∧
    ¬((make_routing_decision "").confidence ≤ 0.5) := by
  refine ⟨?_, ?_, ?_, ?_⟩ <;> with_unfolding_all decide

/-- C8 amended: on an utterance of 0 tokens the rule router returns route
`model_knowledge` with no primary tool, no fallback options, and the fixed
confidence 0.6. -/
theorem empty_query_routing :
    make_routing_decision "" =
      ⟨RouteType.MODEL_KNOWLEDGE, none, 0.6,
       "No suitable tools found, using model knowledge", []⟩ := by
  with_unfolding_all decide

/-- C9 counterexample: registering a second tool under an already-registered
name is not rejected — it silently replaces the callable, the description and
the schema of the first registration (`register_tool` has no replace flag). -/
theorem register_tool_overwrites_cx :
    cRegTwice.get_callable "demo_tool" = some 2 ∧
    ¬(cRegTwice.get_callable "demo_tool" = some 1) ∧
    dictLookup cRegTwice.descriptions "demo_tool" = some "second description" ∧
    dictLookup cRegTwice.param_schemas "demo_tool" = some 22 := by
  refine ⟨?_, ?_, ?_, ?_⟩ <;> decide

/-- Helper for C2: when every model turn is a function call, the loop never
produces text, and it makes at most `fuel` model calls. -/
theorem google_agentic_loop_no_text (model : List HistEntry → ModelResponse)
    (registry : ToolRegistry (String → String) Unit)
    (hcalls : ∀ hist, ∃ nm args, (model hist).candidate = CandidateContent.functionCall nm args) :
    ∀ (fuel : ℕ) (hist : List HistEntry),
      (google_agentic_loop model registry fuel hist).1 = none ∧
      (google_agentic_loop model registry fuel hist).2 ≤ fuel := by
  intro fuel
  induction fuel with
  | zero => intro hist; exact ⟨rfl, Nat.le_refl 0⟩
  | succ n ih =>
    intro hist
    obtain ⟨nm, args, hc⟩ := hcalls hist
    cases hr : registry.get_callable nm with
    | none =>
      constructor
      · simp only [google_agentic_loop, hc, hr]
        exact (ih _).1
      · simp only [google_agentic_loop, hc, hr]
        exact Nat.succ_le_succ (ih _).2
    | some fn =>
      constructor
      · simp only [google_agentic_loop, hc, hr]
        exact (ih _).1
      · simp only [google_agentic_loop, hc, hr]
        exact Nat.succ_le_succ (ih _).2

/-- C2: the Gemini adapter's agentic loop runs at most 3 model iterations;
when every iteration yields a function call (so no pure-text turn appears),
`generate_response` returns exactly the fallback text
"I couldn't complete the request with the available tools." together with
metrics whose `response_time` is the locally measured elapsed time and whose
input/output token counts are heuristic estimates flagged as estimated. -/
theorem google_loop_exhaustion_fallback (model : List HistEntry → ModelResponse)
    (registry : ToolRegistry (String → String) Unit) (messages : List Message)
    (system_prompt : String) (search_results : Option String) (elapsed : ℚ)
    (hcalls : ∀ hist, ∃ nm args, (model hist).candidate = CandidateContent.functionCall nm args) :
    google_generate_response model registry messages system_prompt search_results elapsed =
      { text := loop_exhausted_text
        metrics := some
          { response_time := elapsed
            input_tokens := estimate_tokens (google_input_text messages search_results)
            output_tokens := estimate_tokens loop_exhausted_text
            estimated := ["input_tokens", "output_tokens"] } } ∧
    (google_agentic_loop model registry 3
      (google_api_history messages system_prompt search_results)).2 ≤ 3 := by
  have h := google_agentic_loop_no_text model registry hcalls 3
    (google_api_history messages system_prompt search_results)
  exact ⟨by rw [google_generate_response, h.1], h.2⟩

/-- Witness for C2: a model trace that always calls `brave_search`, against
the empty registry, empty message list and no search passage. -/
theorem google_loop_exhaustion_fallback_witness :
    (∀ hist, ∃ nm args,
      (cModelAllCalls hist).candidate = CandidateContent.functionCall nm args) ∧
    google_generate_response cModelAllCalls ToolRegistry.empty [] "" none 2 =
      { text := loop_exhausted_text
        metrics := some
          { response_time := 2
            input_tokens := estimate_tokens (google_input_text [] none)
            output_tokens := estimate_tokens loop_exhausted_text
            estimated := ["input_tokens", "output_tokens"] } } := by
  have h := google_loop_exhaustion_fallback cModelAllCalls ToolRegistry.empty [] "" none 2
    (fun hist => ⟨"brave_search", "q", rfl⟩)
  exact ⟨fun hist => ⟨"brave_search", "q", rfl⟩, h.1⟩

/-- Helper for C4: each loop pass advances `attempts` by at most one, so the
final attempt counter is bounded by the starting counter plus the fuel. -/
theorem search_loop_attempts_le (env : SearchEnv) (query : String) (qt : ℚ) :
    ∀ (fuel : ℕ) (st : SearchState),
      (search_loop env query qt fuel st).attempts ≤ st.attempts + fuel := by
  intro fuel
  induction fuel with
  | zero => intro st; simp [search_loop]
  | succ n ih =>
    intro st
    simp only [search_loop]
    split
    · omega
    · split
      · exact Nat.le_trans (ih _) (by dsimp only; omega)
      · split
        · exact Nat.le_trans (ih _) (by dsimp only; omega)
        · split
          · split
            · dsimp only; omega
            · omega
          · refine Nat.le_trans (ih _) ?_
            split <;> dsimp only <;> omega

/-- Helper for C4: when every engine call raises, the loop leaves the best
triple untouched and advances the attempt counter once per pass. -/
theorem search_loop_all_raises (env : SearchEnv) (query : String) (qt : ℚ)
    (hra : ∀ n e q, env.call n e q = EngineCall.raises) :
    ∀ (fuel : ℕ) (st : SearchState), st.best_score < qt →
      search_loop env query qt fuel st =
        ⟨st.best_result, st.best_score, st.best_engine, st.attempts + fuel⟩ := by
  intro fuel
  induction fuel with
  | zero => intro st _; rfl
  | succ n ih =>
    intro st hlt
    simp only [search_loop, hra]
    rw [if_neg (not_le.mpr hlt)]
    split
    · rw [ih ⟨st.best_result, st.best_score, st.best_engine, st.attempts + 1⟩ hlt]
      dsimp only
      congr 1
      omega
    · rw [ih ⟨st.best_result, st.best_score, st.best_engine, st.attempts + 1⟩ hlt]
      dsimp only
      congr 1
      omega

/-- C4: `search_with_fallback` never raises (it is a total function of the
recorded call outcomes); the loop makes at most `max_attempts = 5` attempts
in total, an errored engine being skipped while the attempt counter still
advances; and when every engine call raises it returns the empty triple
`("", 0.0, "")`. -/
theorem search_with_fallback_error_handling (env : SearchEnv) (query : String) :
    (search_with_fallback env query).attempts ≤ 5 ∧
    ((∀ n e q, env.call n e q = EngineCall.raises) →
      search_with_fallback env query = ⟨"", 0, "", 5⟩) := by
  constructor
  · simpa using search_loop_attempts_le env query 7 5 ⟨"", 0, "", 0⟩
  · intro hra
    have h := search_loop_all_raises env query 7 hra 5 ⟨"", 0, "", 0⟩ (by norm_num)
    simpa [search_with_fallback] using h

/-- Witness for C4: the environment in which every engine call raises. -/
theorem search_with_fallback_error_handling_witness :
    (∀ n e q, envAllRaise.call n e q = EngineCall.raises) ∧
    search_with_fallback envAllRaise "anything" = ⟨"", 0, "", 5⟩ ∧
    (search_with_fallback envAllRaise "anything").attempts ≤ 5 := by
  have h := search_with_fallback_error_handling envAllRaise "anything"
  exact ⟨fun _ _ _ => rfl, h.2 (fun _ _ _ => rfl), h.1⟩

/-- C10: `assess_result_quality` returns 0.0 — independently of the rating
model, which is not consulted — whenever the result is empty or contains
"no results" case-insensitively, and returns the neutral 5.0 whenever the
rating call fails; consequently, when every engine returns an API error
string and the rater fails, `search_with_fallback` keeps the error string as
its best result with score 5.0 instead of reporting failure. -/
theorem assess_quality_error_semantics :
    (∀ (o : Option ℚ) (r : String),
      (r = "" ∨ pyContains (pyLower r) "no results" = true) →
        assess_result_quality o r = 0) ∧
    (∀ r : String, r ≠ "" → pyContains (pyLower r) "no results" = false →
      assess_result_quality none r = 5) ∧
    search_with_fallback envBraveError "any query" =
      ⟨"Brave API error: 429", 5, "brave_search", 5⟩ := by
  refine ⟨?_, ?_, ?_⟩
  · intro o r h
    rcases h with h | h <;> simp [assess_result_quality, h]
  · intro r h1 h2
    simp [assess_result_quality, h1, h2]
  · decide

/-- Witness for C10: the gating clauses applied at an empty result and at an
API error string whose rating call fails. -/
theorem assess_quality_error_semantics_witness :
    ("" = "" ∨ pyContains (pyLower "") "no results" = true) ∧
    assess_result_quality (some 3) "" = 0 ∧
    ("Brave API error: 429" ≠ "") ∧
    pyContains (pyLower "Brave API error: 429") "no results" = false ∧
    assess_result_quality none "Brave API error: 429" = 5 := by
  have h := assess_quality_error_semantics
  exact ⟨Or.inl rfl, h.1 (some 3) "" (Or.inl rfl), by decide, by decide,
    h.2.1 "Brave API error: 429" (by decide) (by decide)⟩

/-- C6 counterexample: a non-empty three-message history whose topic is not
established and whose current question ("tell me more about that") is
context-dependent — the analysis marks `needs_full_context = true` — still
yields the window `[current]`, not the full history the claim requires for
non-standalone questions. -/
theorem context_window_ignores_standalone_cx :
    cHist3 ≠ [] ∧
    (detect_topic_establishment none cHist3.dropLast).topic_established = false ∧
    (pattern_analyze_context cHistMsg3.content).question_type = "context_dependent" ∧
    cAnalysisCtxDep.needs_full_context = true ∧
    get_optimal_context_window none none cAnalysisCtxDep cHist3 = [cHistMsg3] ∧
    get_optimal_context_window none none cAnalysisCtxDep cHist3 ≠ cHist3 := by
  refine ⟨?_, ?_, ?_, ?_, ?_, ?_⟩ <;> decide

/-- C6 amended: for every non-empty history whose topic is not established,
the window selection returns exactly the current question — regardless of
whether the question is standalone — and the empty history yields the empty
window (the window is a list, never of negative length). -/
theorem context_window_unestablished (topicOracle : Option TopicInfo)
    (relOracle : Option ℚ) (analysis : ContextAnalysis)
    (full_history : List Message) (current : Message)
    (hlast : full_history.getLast? = some current)
    (htopic : (detect_topic_establishment topicOracle
        full_history.dropLast).topic_established = false) :
    get_optimal_context_window topicOracle relOracle analysis full_history = [current] ∧
    get_optimal_context_window topicOracle relOracle analysis [] = [] := by
  constructor
  · rw [get_optimal_context_window, hlast]
    simp [htopic]
  · rfl

/-- Witness for C6: the amended selection rule at the concrete three-message
history. -/
theorem context_window_unestablished_witness :
    cHist3.getLast? = some cHistMsg3 ∧
    (detect_topic_establishment none cHist3.dropLast).topic_established = false ∧
    get_optimal_context_window none none cAnalysisCtxDep cHist3 = [cHistMsg3] := by
  have h := context_window_unestablished none none cAnalysisCtxDep cHist3 cHistMsg3
    (by decide) (by decide)
  exact ⟨by decide, by decide, h.1⟩

/-- Helper for C9: a dict assignment makes the assigned value the one found
under the key. -/
theorem dictLookup_dictSet_self {α : Type} (l : List (String × α)) (k : String) (v : α) :
    dictLookup (dictSet l k v) k = some v := by
  induction l with
  | nil => simp [dictSet, dictLookup]
  | cons kv rest ih =>
    obtain ⟨kk, vv⟩ := kv
    by_cases h : kk = k
    · simp [dictSet, dictLookup, h]
    · simp [dictSet, dictLookup, h, ih]

/-- Helper for C9: a dict assignment introduces no key other than the
assigned one. -/
theorem mem_keys_dictSet {α : Type} (l : List (String × α)) (k x : String) (v : α)
    (hx : x ∈ (dictSet l k v).map Prod.fst) : x ∈ l.map Prod.fst ∨ x = k := by
  induction l with
  | nil => simpa [dictSet] using hx
  | cons kv rest ih =>
    obtain ⟨kk, vv⟩ := kv
    by_cases h : kk = k
    · simp only [dictSet, if_pos h, List.map_cons, List.mem_cons] at hx
      rcases hx with h1 | h1
      · exact Or.inr h1
      · exact Or.inl (by simp [h1])
    · simp only [dictSet, if_neg h, List.map_cons, List.mem_cons] at hx
      rcases hx with h1 | h1
      · exact Or.inl (by simp [h1])
      · rcases ih h1 with h2 | h2
        · exact Or.inl (by simp [h2])
        · exact Or.inr h2

/-- Helper for C9: dict assignment preserves key uniqueness. -/
theorem nodup_keys_dictSet {α : Type} (l : List (String × α)) (k : String) (v : α)
    (h : (l.map Prod.fst).Nodup) : ((dictSet l k v).map Prod.fst).Nodup := by
  induction l with
  | nil => simp [dictSet]
  | cons kv rest ih =>
    obtain ⟨kk, vv⟩ := kv
    simp only [List.map_cons, List.nodup_cons] at h
    by_cases hk : kk = k
    · subst hk
      simp only [dictSet, eq_self_iff_true, if_true, List.map_cons, List.nodup_cons]
      exact ⟨h.1, h.2⟩
    · simp only [dictSet, if_neg hk, List.map_cons, List.nodup_cons]
      refine ⟨?_, ih h.2⟩
      intro hx
      rcases mem_keys_dictSet rest k kk v hx with h2 | h2
      · exact h.1 h2
      · exact hk h2

/-- C9 amended: tool names stay unique (registering preserves the no-duplicate
key invariant of every internal dict), but `register_tool` never rejects a
re-registration — there is no replace flag, and a second registration under
the same name silently makes its callable and description (and schema, when
supplied) the ones found under that name. -/
theorem register_tool_last_wins {Fn Schema : Type} (reg : ToolRegistry Fn Schema)
    (f1 f2 : Fn) (name d1 d2 : String) (s1 s2 : Option Schema) (hwf : reg.wf) :
    ((reg.register_tool f1 name d1 s1).register_tool f2 name d2 s2).get_callable name
      = some f2 ∧
    dictLookup ((reg.register_tool f1 name d1 s1).register_tool f2 name d2 s2).descriptions
      name = some d2 ∧
    ((reg.register_tool f1 name d1 s1).register_tool f2 name d2 s2).wf := by
  obtain ⟨h1, h2, h3⟩ := hwf
  refine ⟨dictLookup_dictSet_self _ _ _, dictLookup_dictSet_self _ _ _,
    nodup_keys_dictSet _ _ _ (nodup_keys_dictSet _ _ _ h1),
    nodup_keys_dictSet _ _ _ (nodup_keys_dictSet _ _ _ h2), ?_⟩
  cases s2 with
  | none =>
    cases s1 with
    | none => exact h3
    | some v1 => exact nodup_keys_dictSet _ _ _ h3
  | some v2 =>
    cases s1 with
    | none => exact nodup_keys_dictSet _ _ _ h3
    | some v1 => exact nodup_keys_dictSet _ _ _ (nodup_keys_dictSet _ _ _ h3)

/-- Witness for C9: double registration of `demo_tool` starting from the
empty (well-formed) registry. -/
theorem register_tool_last_wins_witness :
    (ToolRegistry.empty : ToolRegistry ℕ ℕ).wf ∧
    cRegTwice.get_callable "demo_tool" = some 2 ∧
    cRegTwice.wf := by
  have h := register_tool_last_wins (ToolRegistry.empty : ToolRegistry ℕ ℕ) 1 2 "demo_tool"
    "first description" "second description" (some 11) (some 22)
    ⟨List.nodup_nil, List.nodup_nil, List.nodup_nil⟩
  exact ⟨⟨List.nodup_nil, List.nodup_nil, List.nodup_nil⟩, h.1, h.2.2⟩

/-- C5: the deterministic rule router implements the combination table.  For
every utterance, with `best` the top tool assessment: confidence at least 0.8
gives `tool_direct` with "search" listed as fallback exactly when external
search is needed; confidence in [0.4, 0.8) with search needed gives
`tool_with_search`; confidence in [0.4, 0.8) without search gives
`tool_direct` with no fallback; confidence below 0.4 with search needed gives
the route kind the specification calls `search_only` (the source enum member
`SEARCH_FIRST`); confidence in [0.2, 0.4) without search gives `tool_direct`
with "search" as fallback; and anything else gives `model_knowledge` with no
primary tool. -/
theorem rule_router_combination_table (query : String) (best : ToolConfidence)
    (hbest : (assess_all_tools query).head? = some best) :
    (best.confidence ≥ 0.8 →
      (make_routing_decision query).route_type = RouteType.TOOL_DIRECT ∧
      (make_routing_decision query).primary_tool = some best.tool_name ∧
      (make_routing_decision query).fallback_options =
        (if needs_external_search query then ["search"] else [])) ∧
    (best.confidence < 0.8 → best.confidence ≥ 0.4 → needs_external_search query = true →
      (make_routing_decision query).route_type = RouteType.TOOL_WITH_SEARCH ∧
      (make_routing_decision query).primary_tool = some best.tool_name) ∧
    (best.confidence < 0.8 → best.confidence ≥ 0.4 → needs_external_search query = false →
      (make_routing_decision query).route_type = RouteType.TOOL_DIRECT ∧
      (make_routing_decision query).primary_tool = some best.tool_name ∧
      (make_routing_decision query).fallback_options = []) ∧
    (best.confidence < 0.4 → needs_external_search query = true →
      (make_routing_decision query).route_type = RouteType.SEARCH_FIRST) ∧
    (best.confidence < 0.4 → best.confidence ≥ 0.2 → needs_external_search query = false →
      (make_routing_decision query).route_type = RouteType.TOOL_DIRECT ∧
      (make_routing_decision query).primary_tool = some best.tool_name ∧
      (make_routing_decision query).fallback_options = ["search"]) ∧
    (best.confidence < 0.2 → needs_external_search query = false →
      (make_routing_decision query).route_type = RouteType.MODEL_KNOWLEDGE ∧
      (make_routing_decision query).primary_tool = none) := by
  rw [make_routing_decision, hbest]
  refine ⟨?_, ?_, ?_, ?_, ?_, ?_⟩
  · intro h
    simp only [routing_decision_logic]
    rw [if_pos h]
    exact ⟨rfl, rfl, rfl⟩
  · intro h1 h2 h3
    simp only [routing_decision_logic]
    rw [if_neg (not_le.mpr h1), if_pos h2, if_pos h3]
    exact ⟨rfl, rfl⟩
  · intro h1 h2 h3
    simp only [routing_decision_logic]
    rw [if_neg (not_le.mpr h1), if_pos h2, if_neg (by simp [h3])]
    exact ⟨rfl, rfl, rfl⟩
  · intro h1 h3
    simp only [routing_decision_logic]
    have h08 : ¬(best.confidence ≥ 0.8) := not_le.mpr (lt_of_lt_of_le h1 (by norm_num))
    rw [if_neg h08, if_neg (not_le.mpr h1), if_pos h3]
  · intro h1 h2 h3
    simp only [routing_decision_logic]
    have h08 : ¬(best.confidence ≥ 0.8) := not_le.mpr (lt_of_lt_of_le h1 (by norm_num))
    rw [if_neg h08, if_neg (not_le.mpr h1), if_neg (by simp [h3]), if_pos h2]
    exact ⟨rfl, rfl, rfl⟩
  · intro h1 h3
    simp only [routing_decision_logic]
    have h08 : ¬(best.confidence ≥ 0.8) := not_le.mpr (lt_of_lt_of_le h1 (by norm_num))
    have h04 : ¬(best.confidence ≥ 0.4) := not_le.mpr (lt_of_lt_of_le h1 (by norm_num))
    have h02 : ¬(best.confidence ≥ 0.2) := not_le.mpr h1
    rw [if_neg h08, if_neg h04, if_neg (by simp [h3]), if_neg h02]
    exact ⟨rfl, rfl⟩

/-- Witness for C5: the combination table applied to the empty utterance,
whose best assessment has confidence 0 and which needs no search. -/
theorem rule_router_combination_table_witness :
    (assess_all_tools "").head? = some ⟨"get_weather_forecast", 0, false⟩ ∧
    ((⟨"get_weather_forecast", 0, false⟩ : ToolConfidence).confidence < 0.2) ∧
    needs_external_search "" = false ∧
    (make_routing_decision "").route_type = RouteType.MODEL_KNOWLEDGE ∧
    (make_routing_decision "").primary_tool = none := by
  have h := rule_router_combination_table "" ⟨"get_weather_forecast", 0, false⟩
    (by with_unfolding_all decide)
  have h2 := h.2.2.2.2.2 (by norm_num) (by decide)
  exact ⟨by with_unfolding_all decide, by norm_num, by decide, h2.1, h2.2⟩
